import Mathlib

/-!
Shallow embedding of `src/mem0/client/main.py` (mem0 API client), covering the
parameter reconciliation (`MemoryClient._prepare_params`), the payload builder
(`MemoryClient._prepare_payload`), the error-wrapping decorator
(`api_error_handler`), the request shape of `get_all` on both the synchronous
and the asynchronous client, and the sequential entity-deletion loop of
`delete_users`.

Python dictionaries are modelled as insertion-ordered association lists
`List (String × Value)` with the usual Python semantics: assignment to an
existing key replaces the value in place (keeping the key's position),
assignment to a fresh key appends, and `pop` removes the key.  Python `None`
is the `Value.null` constructor, and Python truthiness of an `Optional[str]`
attribute (`None` and `""` are falsy) is the `truthy` function.
-/

namespace Mem0

/-- A Python value as it occurs in the client's parameter and payload
dictionaries: `None`, strings, integers, booleans, lists and dicts. -/
inductive Value where
  | null : Value
  | str : String → Value
  | int : Int → Value
  | bool : Bool → Value
  | list : List Value → Value
  | dict : List (String × Value) → Value

/-- `v is None` in Python. -/
def Value.isNull : Value → Bool
  | .null => true
  | _ => false

/-- A Python dict with string keys, as an insertion-ordered association list. -/
abbrev PyDict := List (String × Value)

/-- `d[k]` lookup: the value at the first occurrence of key `k`. -/
def dictGet : PyDict → String → Option Value
  | [], _ => Option.none
  | p :: t, k => if p.1 == k then some p.2 else dictGet t k

/-- `k in d`: membership test for key `k`. -/
def hasKey : PyDict → String → Bool
  | [], _ => false
  | p :: t, k => p.1 == k || hasKey t k

/-- `d[k] = v` assignment: replace the value at the first occurrence of `k`
(keeping its position, as Python dicts do), or append `(k, v)` if absent. -/
def dictSet : PyDict → String → Value → PyDict
  | [], k, v => [(k, v)]
  | p :: t, k, v => if p.1 == k then (k, v) :: t else p :: dictSet t k v

/-- `d.pop(k)`, the remaining dict: drop the first occurrence of key `k`. -/
def dictRemove : PyDict → String → PyDict
  | [], _ => []
  | p :: t, k => if p.1 == k then t else p :: dictRemove t k

/-- The dict comprehension at the end of `_prepare_params` and inside
`_prepare_payload`: keep exactly the entries whose value is not `None`. -/
def filterNonNull (d : PyDict) : PyDict :=
  d.filter (fun p => !p.2.isNull)

/-- `d.update(other)`: assign each entry of `other`, in order, into `d`. -/
def dictUpdate (d other : PyDict) : PyDict :=
  other.foldl (fun acc p => dictSet acc p.1 p.2) d

/-- Python truthiness of an `Optional[str]` attribute: `None` and the empty
string are falsy, every other string is truthy. -/
def truthy : Option String → Bool
  | Option.none => false
  | some s => !(s == "")

/-- The Python attribute value itself (a string, or `None`), as a `Value`;
used where `_prepare_params` assigns `self.org_id` and friends into the dict. -/
def optStr : Option String → Value
  | Option.none => Value.null
  | some s => Value.str s

/-- The identifier fields of a `MemoryClient` session that
`_prepare_params` reads: the deprecated `organization` / `project` name pair
and the current `org_id` / `project_id` pair (each `Optional[str]`). -/
structure Session where
  organization : Option String
  project : Option String
  org_id : Option String
  project_id : Option String

/-- The tail of `_prepare_params` (main.py lines 536-543): after the id pair
has been handled, inject the deprecated name pair when both names are truthy,
raise `ValueError` when exactly one is truthy, and finally build the returned
dict as the non-null filter of the working dict.  Returns
`(final state of the caller's kwargs dict, the newly built returned dict)`. -/
def namesStep (s : Session) (kwargs1 : PyDict) : Except String (PyDict × PyDict) :=
  if truthy s.organization && truthy s.project then
    let kwargs2 := dictSet (dictSet kwargs1 "org_name" (optStr s.organization))
      "project_name" (optStr s.project)
    Except.ok (kwargs2, filterNonNull kwargs2)
  else if truthy s.organization || truthy s.project then
    Except.error "Please provide both org_name and project_name"
  else
    Except.ok (kwargs1, filterNonNull kwargs1)

/-- State-passing embedding of `MemoryClient._prepare_params`
(main.py lines 504-543).  The Python function mutates the caller's `kwargs`
dict in place (`kwargs["org_id"] = self.org_id` etc.) and then returns a new
dict built by a comprehension; accordingly the result is the pair
`(final state of the caller's kwargs dict object, the returned dict)`, or
`Except.error msg` for a raised `ValueError(msg)`. -/
def prepare_params_st (s : Session) (kwargs : PyDict) : Except String (PyDict × PyDict) :=
  if (truthy s.org_id || truthy s.project_id) && (truthy s.organization || truthy s.project) then
    Except.error ("Please use either org_id/project_id or org_name/project_name, not both. " ++
      "Note that org_name/project_name are deprecated.")
  else if truthy s.org_id && truthy s.project_id then
    namesStep s (dictSet (dictSet kwargs "org_id" (optStr s.org_id))
      "project_id" (optStr s.project_id))
  else if truthy s.org_id || truthy s.project_id then
    Except.error "Please provide both org_id and project_id"
  else
    namesStep s kwargs

/-- The value `_prepare_params` returns to its caller (the new dict built by
the final comprehension), ignoring the in-place mutation of the argument. -/
def prepare_params (s : Session) (kwargs : PyDict) : Except String PyDict :=
  (prepare_params_st s kwargs).map Prod.snd

/-- The `messages` argument of `MemoryClient.add` /
`MemoryClient._prepare_payload`: a plain string, an already-structured list of
message dicts, or `None`. -/
inductive PyMessages where
  | str : String → PyMessages
  | list : List Value → PyMessages
  | none : PyMessages

/-- Embedding of `MemoryClient._prepare_payload` (main.py lines 483-502):
start from an empty payload, set `payload["messages"]` according to the shape
of `messages`, then `payload.update({k: v for k, v in kwargs.items() if v is
not None})`. -/
def prepare_payload (messages : PyMessages) (kwargs : PyDict) : PyDict :=
  let payload : PyDict :=
    match messages with
    | .str s => [("messages", Value.list [Value.dict [("role", Value.str "user"),
        ("content", Value.str s)]])]
    | .list ms => [("messages", Value.list ms)]
    | .none => []
  dictUpdate payload (filterNonNull kwargs)

/-- The Python exceptions relevant to the client: the two `httpx` failures the
decorator catches, the `ValueError` raised by `_prepare_params`, the
`UnboundLocalError` from reading a never-assigned local, and the client's own
`APIError`. -/
inductive Exc where
  | httpStatusError : String → Exc
  | requestError : String → Exc
  | valueError : String → Exc
  | unboundLocalError : Exc
  | apiError : String → Exc
deriving DecidableEq

/-- The `except` clauses of `api_error_handler` (main.py lines 24-38): an
`httpx.HTTPStatusError` with response text `t` becomes
`APIError("API request failed: " + t)`, an `httpx.RequestError` with message
`m` becomes `APIError("Request failed: " + m)`, and every other exception
propagates unchanged (the decorator catches only those two). -/
def catchTransform : Exc → Exc
  | .httpStatusError t => .apiError ("API request failed: " ++ t)
  | .requestError m => .apiError ("Request failed: " ++ m)
  | e => e

/-- The outcome of running a piece of Python code to completion: a returned
value, or a raised exception. -/
inductive PyResult (α : Type) where
  | value : α → PyResult α
  | exc : Exc → PyResult α

/-- A coroutine object, as returned by calling an `async def` function:
calling the function raises nothing and only packages the body; the body runs
(returning or raising) when the object is awaited. -/
structure Coroutine (α : Type) where
  run : PyResult α

/-- What evaluating `func(*args, **kwargs)` yields inside the decorator's
`try`: for a synchronous `func` the body runs to completion right there; for
an `async def func` a coroutine object is produced without running the body. -/
inductive CallResult (α : Type) where
  | sync : PyResult α → CallResult α
  | coro : Coroutine α → CallResult α

/-- Embedding of the `api_error_handler` decorator's wrapper (main.py lines
24-38).  The wrapper is a plain synchronous function: `try: return
func(*args, **kwargs) except httpx...`.  When `func` is synchronous, an
exception raised by the body is observed by the `try` and transformed.  When
`func` is an `async def`, evaluating `func(*args, **kwargs)` merely creates
the coroutine object and raises nothing, so the wrapper returns it unchanged
and the body later runs outside the wrapper's `try` block, at the caller's
`await`. -/
def api_error_handler {α : Type} : CallResult α → CallResult α
  | .sync (.exc e) => .sync (.exc (catchTransform e))
  | r => r

/-- Awaiting a coroutine object runs its body. -/
def awaitResult {α : Type} (c : Coroutine α) : PyResult α :=
  c.run

/-- The body shared by `MemoryClient.add` and `AsyncMemoryClient.add`
(main.py lines 124-145 and 579-588) up to the HTTP response: reconcile
parameters (a raised `ValueError` propagates), build the payload, then POST
it; the transport outcome of the POST is supplied as the `post` argument. -/
def add_body (s : Session) (messages : PyMessages) (kwargs : PyDict)
    (post : PyDict → PyResult PyDict) : PyResult PyDict :=
  match prepare_params s kwargs with
  | .error m => .exc (.valueError m)
  | .ok kw => post (prepare_payload messages kw)

/-- `MemoryClient.add` as seen by its caller: the decorated synchronous call,
with the body's outcome passing through the wrapper's `try`. -/
def add_sync_call (s : Session) (messages : PyMessages) (kwargs : PyDict)
    (post : PyDict → PyResult PyDict) : PyResult PyDict :=
  match api_error_handler (CallResult.sync (add_body s messages kwargs post)) with
  | .sync r => r
  | .coro c => c.run

/-- `AsyncMemoryClient.add` as seen by its caller: calling the decorated
method returns the coroutine produced inside the wrapper's `try`; the body
runs only when the caller awaits it. -/
def add_async_call (s : Session) (messages : PyMessages) (kwargs : PyDict)
    (post : PyDict → PyResult PyDict) : Coroutine PyDict :=
  match api_error_handler (CallResult.coro ⟨add_body s messages kwargs post⟩) with
  | .coro c => c
  | .sync r => ⟨r⟩

/-- The HTTP request a client method hands to `httpx`: method, path, URL
query parameters (`params=`), and optional JSON body (`json=`). -/
structure Request where
  method : String
  path : String
  params : PyDict
  jsonBody : Option PyDict

/-- How far a `get_all` call gets: it either issues an HTTP request of a
definite shape, or raises before any request is issued. -/
inductive GetAllOutcome where
  | request : Request → GetAllOutcome
  | raised : Exc → GetAllOutcome

/-- The body of `MemoryClient.get_all` (main.py lines 167-197) up to the
point where the HTTP request is issued: reconcile parameters, then for "v1" a
GET with the parameters as query string; for "v2" a POST where, when both
`page` and `page_size` are present, exactly those two are popped into the
query string and the rest travels as JSON body, and otherwise everything
travels as JSON body; for any other version neither branch assigns `response`
and `response.raise_for_status()` raises `UnboundLocalError`. -/
def get_all_body (s : Session) (version : String) (kwargs : PyDict) : GetAllOutcome :=
  match prepare_params s kwargs with
  | .error m => .raised (.valueError m)
  | .ok params =>
    if version == "v1" then
      .request ⟨"GET", "/" ++ version ++ "/memories/", params, Option.none⟩
    else if version == "v2" then
      if hasKey params "page" && hasKey params "page_size" then
        let pv := (dictGet params "page").getD Value.null
        let params1 := dictRemove params "page"
        let psv := (dictGet params1 "page_size").getD Value.null
        let params2 := dictRemove params1 "page_size"
        .request ⟨"POST", "/" ++ version ++ "/memories/",
          [("page", pv), ("page_size", psv)], some params2⟩
      else
        .request ⟨"POST", "/" ++ version ++ "/memories/", [], some params⟩
    else
      .raised .unboundLocalError

/-- `MemoryClient.get_all` as seen by its caller: the synchronous body runs
inside the decorator's `try`, so a raised exception passes through
`catchTransform` (which leaves `ValueError` and `UnboundLocalError` alone). -/
def get_all_sync (s : Session) (version : String) (kwargs : PyDict) : GetAllOutcome :=
  match get_all_body s version kwargs with
  | .raised e => .raised (catchTransform e)
  | r => r

/-- The body of `AsyncMemoryClient.get_all` (main.py lines 599-611) up to the
point where the HTTP request is issued: same as the synchronous body except
that the "v2" branch unconditionally POSTs all parameters as the JSON body,
with no query-parameter split. -/
def get_all_async_body (s : Session) (version : String) (kwargs : PyDict) : GetAllOutcome :=
  match prepare_params s kwargs with
  | .error m => .raised (.valueError m)
  | .ok params =>
    if version == "v1" then
      .request ⟨"GET", "/" ++ version ++ "/memories/", params, Option.none⟩
    else if version == "v2" then
      .request ⟨"POST", "/" ++ version ++ "/memories/", [], some params⟩
    else
      .raised .unboundLocalError

/-- `AsyncMemoryClient.get_all` as observed when the caller awaits it: the
body runs outside the wrapper's `try` (the wrapper only saw the coroutine
object being created), so its outcome — request issued or exception raised —
reaches the caller untransformed. -/
def get_all_async (s : Session) (version : String) (kwargs : PyDict) : GetAllOutcome :=
  get_all_async_body s version kwargs

/-- An entry of the `results` list returned by the `users()` listing, as
consumed by `delete_users`: an entity type and id. -/
structure Entity where
  type : String
  id : String
deriving DecidableEq

/-- The observable trace of the per-entity deletion loop of `delete_users`:
which DELETE requests were issued (in order), which of them completed
successfully (in order), and the exception that aborted the loop, if any. -/
structure DeleteTrace where
  issued : List Entity
  completed : List Entity
  error : Option Exc
deriving DecidableEq

/-- The `for entity in entities["results"]` loop of `MemoryClient.delete_users`
(main.py lines 311-313): issue one DELETE per entity, strictly in order, and
stop at the first one whose `raise_for_status()` raises.  `outcome e` is the
result of entity `e`'s DELETE (`Option.none` for success, `some exc` for a
failure). -/
def delete_users_sync (outcome : Entity → Option Exc) : List Entity → DeleteTrace
  | [] => ⟨[], [], Option.none⟩
  | e :: rest =>
    match outcome e with
    | some x => ⟨[e], [], some x⟩
    | Option.none =>
      let t := delete_users_sync outcome rest
      ⟨e :: t.issued, e :: t.completed, t.error⟩

/-- The `for entity in entities["results"]` loop of
`AsyncMemoryClient.delete_users` (main.py lines 670-672): textually the same
sequential loop, each DELETE awaited before the next is issued. -/
def delete_users_async (outcome : Entity → Option Exc) : List Entity → DeleteTrace
  | [] => ⟨[], [], Option.none⟩
  | e :: rest =>
    match outcome e with
    | some x => ⟨[e], [], some x⟩
    | Option.none =>
      let t := delete_users_async outcome rest
      ⟨e :: t.issued, e :: t.completed, t.error⟩

/-- A session with no identifier fields configured. -/
def emptySession : Session :=
  ⟨Option.none, Option.none, Option.none, Option.none⟩

/-- A session with only `org_id` set — a misconfigured session on which
`_prepare_params` always raises. -/
def orgOnlySession : Session :=
  ⟨Option.none, Option.none, some "org_123", Option.none⟩

/-- A session with both `org_id` and `project_id` set. -/
def idSession : Session :=
  ⟨Option.none, Option.none, some "org_123", some "proj_456"⟩

/-- Whether `_prepare_params` returned normally (rather than raising). -/
def isOk : Except String PyDict → Bool
  | .ok _ => true
  | .error _ => false

/-- Lookup of key `k` in the dict returned by `_prepare_params`, when it
returned normally. -/
def okDictGet (r : Except String PyDict) (k : String) : Option Value :=
  match r with
  | .ok d => dictGet d k
  | .error _ => Option.none

theorem dictGet_dictSet_self (d : PyDict) (k : String) (v : Value) :
    dictGet (dictSet d k v) k = some v := by
  induction d with
  | nil => simp [dictSet, dictGet]
  | cons p t ih =>
    cases hp : (p.1 == k) with
    | true => simp [dictSet, hp, dictGet]
    | false => simp [dictSet, hp, dictGet, ih]

theorem dictGet_dictSet_ne {k k' : String} (h : ¬(k = k')) (d : PyDict) (v : Value) :
    dictGet (dictSet d k v) k' = dictGet d k' := by
  induction d with
  | nil =>
    have : (k == k') = false := by simpa using h
    simp [dictSet, dictGet, this]
  | cons p t ih =>
    cases hp : (p.1 == k) with
    | true =>
      have hk : p.1 = k := by simpa using hp
      have h1 : (k == k') = false := by simpa using h
      have h2 : (p.1 == k') = false := by simp [hk, h]
      simp [dictSet, hp, dictGet, h1, h2]
    | false => simp [dictSet, hp, dictGet, ih]

theorem dictGet_filterNonNull {d : PyDict} {k : String} {v : Value}
    (h : dictGet d k = some v) (hv : v.isNull = false) :
    dictGet (filterNonNull d) k = some v := by
  induction d with
  | nil => simp [dictGet] at h
  | cons p t ih =>
    cases hp : (p.1 == k) with
    | true =>
      rw [dictGet, if_pos hp] at h
      have hpv : p.2 = v := by simpa using h
      simp [filterNonNull, List.filter_cons, dictGet, hp, hpv, hv]
    | false =>
      rw [dictGet, if_neg (by simp [hp])] at h
      cases hnull : (!p.2.isNull) with
      | true => simpa [filterNonNull, List.filter_cons, hnull, dictGet, hp] using ih h
      | false => simpa [filterNonNull, List.filter_cons, hnull] using ih h

theorem hasKey_iff_mem {d : PyDict} {k : String} :
    hasKey d k = true ↔ k ∈ d.map Prod.fst := by
  induction d with
  | nil => simp [hasKey]
  | cons p t ih =>
    simp only [hasKey, List.map_cons, List.mem_cons, Bool.or_eq_true, beq_iff_eq, ih]
    constructor
    · rintro (h | h)
      · exact Or.inl h.symm
      · exact Or.inr h
    · rintro (h | h)
      · exact Or.inl h.symm
      · exact Or.inr h

theorem hasKey_eq_isSome (d : PyDict) (k : String) :
    hasKey d k = (dictGet d k).isSome := by
  induction d with
  | nil => simp [hasKey, dictGet]
  | cons p t ih =>
    cases hp : (p.1 == k) with
    | true => simp [hasKey, dictGet, hp]
    | false => simp [hasKey, dictGet, hp, ih]

theorem dictGet_dictRemove_ne {k k' : String} (h : ¬(k = k')) (d : PyDict) :
    dictGet (dictRemove d k) k' = dictGet d k' := by
  induction d with
  | nil => simp [dictRemove]
  | cons p t ih =>
    cases hp : (p.1 == k) with
    | true =>
      have hk : p.1 = k := by simpa using hp
      have h2 : (p.1 == k') = false := by simp [hk, h]
      simp [dictRemove, hp, dictGet, h2]
    | false => simp [dictRemove, hp, dictGet, ih]

theorem dictRemove_sublist (d : PyDict) (k : String) : List.Sublist (dictRemove d k) d := by
  induction d with
  | nil => simp [dictRemove]
  | cons p t ih =>
    cases hp : (p.1 == k) with
    | true =>
      rw [dictRemove, if_pos hp]
      exact List.sublist_cons_self p t
    | false =>
      rw [dictRemove, if_neg (by simp [hp])]
      exact List.Sublist.cons₂ p ih

theorem hasKey_dictRemove_self {d : PyDict} {k : String}
    (h : (d.map Prod.fst).Nodup) : hasKey (dictRemove d k) k = false := by
  induction d with
  | nil => simp [dictRemove, hasKey]
  | cons p t ih =>
    rw [List.map_cons, List.nodup_cons] at h
    cases hp : (p.1 == k) with
    | true =>
      have hk : p.1 = k := by simpa using hp
      rw [dictRemove, if_pos hp]
      cases htk : hasKey t k with
      | true => exact absurd (hk ▸ hasKey_iff_mem.mp htk) h.1
      | false => rfl
    | false =>
      rw [dictRemove, if_neg (by simp [hp]), hasKey, hp]
      simpa using ih h.2

theorem keys_dictSet_of_hasKey {d : PyDict} {k : String} (h : hasKey d k = true)
    (v : Value) : (dictSet d k v).map Prod.fst = d.map Prod.fst := by
  induction d with
  | nil => simp [hasKey] at h
  | cons p t ih =>
    cases hp : (p.1 == k) with
    | true =>
      have hk : p.1 = k := by simpa using hp
      simp [dictSet, hp, hk]
    | false =>
      rw [hasKey, hp] at h
      simp only [Bool.false_or] at h
      simp [dictSet, hp, ih h]

theorem keys_dictSet_of_not_hasKey {d : PyDict} {k : String} (h : hasKey d k = false)
    (v : Value) : (dictSet d k v).map Prod.fst = d.map Prod.fst ++ [k] := by
  induction d with
  | nil => simp [dictSet]
  | cons p t ih =>
    rw [hasKey] at h
    cases hp : (p.1 == k) with
    | true => simp [hp] at h
    | false =>
      rw [hp] at h
      simp only [Bool.false_or] at h
      simp [dictSet, hp, ih h]

theorem nodup_keys_dictSet {d : PyDict} (h : (d.map Prod.fst).Nodup)
    (k : String) (v : Value) : ((dictSet d k v).map Prod.fst).Nodup := by
  cases hk : hasKey d k with
  | true => rw [keys_dictSet_of_hasKey hk]; exact h
  | false =>
    rw [keys_dictSet_of_not_hasKey hk]
    have hnot : k ∉ d.map Prod.fst := fun hm => by
      rw [hasKey_iff_mem.mpr hm] at hk; cases hk
    simp [List.nodup_append, h, hnot]

theorem nodup_keys_filterNonNull {d : PyDict} (h : (d.map Prod.fst).Nodup) :
    ((filterNonNull d).map Prod.fst).Nodup :=
  List.Nodup.sublist (List.Sublist.map Prod.fst (List.filter_sublist d)) h

theorem nodup_keys_dictRemove {d : PyDict} (h : (d.map Prod.fst).Nodup)
    (k : String) : ((dictRemove d k).map Prod.fst).Nodup :=
  List.Nodup.sublist (List.Sublist.map Prod.fst (dictRemove_sublist d k)) h

theorem hasKey_append (d₁ d₂ : PyDict) (k : String) :
    hasKey (d₁ ++ d₂) k = (hasKey d₁ k || hasKey d₂ k) := by
  induction d₁ with
  | nil => simp [hasKey]
  | cons p t ih => simp [hasKey, ih, Bool.or_assoc]

theorem dictSet_eq_append_of_not_hasKey {d : PyDict} {k : String}
    (h : hasKey d k = false) (v : Value) : dictSet d k v = d ++ [(k, v)] := by
  induction d with
  | nil => simp [dictSet]
  | cons p t ih =>
    rw [hasKey] at h
    cases hp : (p.1 == k) with
    | true => simp [hp] at h
    | false =>
      rw [hp] at h
      simp only [Bool.false_or] at h
      simp [dictSet, hp, ih h]

theorem dictUpdate_eq_append {l : PyDict} (d : PyDict)
    (hnd : (l.map Prod.fst).Nodup) (h : ∀ p ∈ l, hasKey d p.1 = false) :
    dictUpdate d l = d ++ l := by
  induction l generalizing d with
  | nil => simp [dictUpdate]
  | cons p t ih =>
    obtain ⟨k, v⟩ := p
    rw [List.map_cons, List.nodup_cons] at hnd
    have harg : ∀ q ∈ t, hasKey (d ++ [(k, v)]) q.1 = false := by
      intro q hq
      rw [hasKey_append]
      have h1 : hasKey d q.1 = false := h q (List.mem_cons_of_mem _ hq)
      have h2 : ¬(k = q.1) := fun hkq => hnd.1 (hkq ▸ List.mem_map.mpr ⟨q, hq, rfl⟩)
      simp [hasKey, h1, h2]
    have hstep : dictUpdate d ((k, v) :: t) = dictUpdate (dictSet d k v) t := rfl
    rw [hstep, dictSet_eq_append_of_not_hasKey (h (k, v) (List.mem_cons_self _ _)) v,
      ih (d ++ [(k, v)]) hnd.2 harg]
    simp

/-- C1: for every client session whose `org_id` and `project_id` are both set
(truthy) and whose legacy name fields are unset, and for every per-call input
mapping, `_prepare_params` returns normally and the returned mapping binds
`"org_id"` to the session's org ID and `"project_id"` to the session's
project ID — even when the input mapping already contained different values
for those keys, since the session values are assigned after the caller's
entries and therefore take precedence. -/
theorem spec_C1_session_ids_injected (oid pid : String) (kwargs : PyDict)
    (hoid : oid ≠ "") (hpid : pid ≠ "") :
    isOk (prepare_params ⟨Option.none, Option.none, some oid, some pid⟩ kwargs) = true ∧
    okDictGet (prepare_params ⟨Option.none, Option.none, some oid, some pid⟩ kwargs)
      "org_id" = some (Value.str oid) ∧
    okDictGet (prepare_params ⟨Option.none, Option.none, some oid, some pid⟩ kwargs)
      "project_id" = some (Value.str pid) := by
  have h1 : truthy (some oid) = true := by simp [truthy, hoid]
  have h2 : truthy (some pid) = true := by simp [truthy, hpid]
  have hrun : prepare_params ⟨Option.none, Option.none, some oid, some pid⟩ kwargs =
      Except.ok (filterNonNull (dictSet (dictSet kwargs "org_id" (Value.str oid))
        "project_id" (Value.str pid))) := by
    simp [prepare_params, prepare_params_st, namesStep, truthy, h1, h2, hoid, hpid, optStr,
      Except.map]
  refine ⟨by rw [hrun]; rfl, ?_, ?_⟩
  · rw [hrun]
    simp only [okDictGet]
    exact dictGet_filterNonNull
      (by rw [dictGet_dictSet_ne (by decide) _ _, dictGet_dictSet_self]) rfl
  · rw [hrun]
    simp only [okDictGet]
    exact dictGet_filterNonNull (dictGet_dictSet_self _ _ _) rfl

/-- Witness for C1: concrete session whose ids are `org_123` / `proj_456`,
applied to an input mapping that already binds `"org_id"` to a different
value; the session values win. -/
theorem spec_C1_witness :
    "org_123" ≠ "" ∧ "proj_456" ≠ "" ∧
    (isOk (prepare_params ⟨Option.none, Option.none, some "org_123", some "proj_456"⟩
        [("org_id", Value.str "OTHER")]) = true ∧
      okDictGet (prepare_params ⟨Option.none, Option.none, some "org_123", some "proj_456"⟩
        [("org_id", Value.str "OTHER")]) "org_id" = some (Value.str "org_123") ∧
      okDictGet (prepare_params ⟨Option.none, Option.none, some "org_123", some "proj_456"⟩
        [("org_id", Value.str "OTHER")]) "project_id" = some (Value.str "proj_456")) :=
  ⟨by decide, by decide,
    spec_C1_session_ids_injected "org_123" "proj_456" [("org_id", Value.str "OTHER")]
      (by decide) (by decide)⟩

/-- C2: for every client session in which both the legacy `organization` /
`project` name pair and the `org_id` / `project_id` pair are configured,
`_prepare_params` raises `ValueError` (the configuration error) for every
input mapping, before producing any output mapping: the result is
`Except.error`, carrying the mutual-exclusion message, and no dict is
returned. -/
theorem spec_C2_both_pairs_error (onm pnm oid pid : String) (kwargs : PyDict)
    (h1 : onm ≠ "") (h2 : pnm ≠ "") (h3 : oid ≠ "") (h4 : pid ≠ "") :
    prepare_params ⟨some onm, some pnm, some oid, some pid⟩ kwargs =
      Except.error ("Please use either org_id/project_id or org_name/project_name, not both. " ++
        "Note that org_name/project_name are deprecated.") := by
  have ht1 : truthy (some onm) = true := by simp [truthy, h1]
  have ht2 : truthy (some pnm) = true := by simp [truthy, h2]
  have ht3 : truthy (some oid) = true := by simp [truthy, h3]
  have ht4 : truthy (some pid) = true := by simp [truthy, h4]
  simp [prepare_params, prepare_params_st, ht1, ht2, ht3, ht4, Except.map]

/-- Witness for C2 at a concrete fully-configured session. -/
theorem spec_C2_witness :
    "acme" ≠ "" ∧ "demo" ≠ "" ∧ "org_123" ≠ "" ∧ "proj_456" ≠ "" ∧
    prepare_params ⟨some "acme", some "demo", some "org_123", some "proj_456"⟩
        [("user_id", Value.str "alice")] =
      Except.error ("Please use either org_id/project_id or org_name/project_name, not both. " ++
        "Note that org_name/project_name are deprecated.") :=
  ⟨by decide, by decide, by decide, by decide,
    spec_C2_both_pairs_error "acme" "demo" "org_123" "proj_456"
      [("user_id", Value.str "alice")] (by decide) (by decide) (by decide) (by decide)⟩

/-- C3: for every client session with exactly one of `org_id` / `project_id`
set (their truthiness differs), and likewise for every session with exactly
one of the legacy `organization` / `project` names set, `_prepare_params`
raises `ValueError` for every input mapping (whichever of its three raise
sites fires first). -/
theorem spec_C3_unpaired_error (s : Session) (kwargs : PyDict)
    (h : truthy s.org_id ≠ truthy s.project_id ∨ truthy s.organization ≠ truthy s.project) :
    isOk (prepare_params s kwargs) = false := by
  cases h1 : truthy s.org_id <;> cases h2 : truthy s.project_id <;>
    cases h3 : truthy s.organization <;> cases h4 : truthy s.project <;>
      simp_all [prepare_params, prepare_params_st, namesStep, isOk, Except.map]

/-- Witness for C3 at a concrete session with only `org_id` set. -/
theorem spec_C3_witness :
    truthy orgOnlySession.org_id ≠ truthy orgOnlySession.project_id ∧
    isOk (prepare_params orgOnlySession [("user_id", Value.str "alice")]) = false :=
  ⟨by decide,
    spec_C3_unpaired_error orgOnlySession [("user_id", Value.str "alice")]
      (Or.inl (by decide))⟩

/-- C4: for every client session in which none of `org_id`, `project_id`,
legacy `organization`, legacy `project` is set (all falsy), and for every
input mapping, `_prepare_params` returns exactly the restriction of the
input to its non-`None` entries, unchanged and in order; `None`-valued
entries are omitted entirely, never emitted as `None`. -/
theorem spec_C4_no_ids_filter (s : Session) (kwargs : PyDict)
    (h1 : truthy s.org_id = false) (h2 : truthy s.project_id = false)
    (h3 : truthy s.organization = false) (h4 : truthy s.project = false) :
    prepare_params s kwargs = Except.ok (filterNonNull kwargs) := by
  simp [prepare_params, prepare_params_st, namesStep, h1, h2, h3, h4, Except.map]

/-- Witness for C4: a session with nothing set and an input with one
`None`-valued entry; the output keeps the non-`None` entry unchanged and
drops the `None` one. -/
theorem spec_C4_witness :
    truthy emptySession.org_id = false ∧
    prepare_params emptySession [("user_id", Value.str "alice"), ("agent_id", Value.null)] =
      Except.ok (filterNonNull [("user_id", Value.str "alice"), ("agent_id", Value.null)]) ∧
    filterNonNull [("user_id", Value.str "alice"), ("agent_id", Value.null)] =
      [("user_id", Value.str "alice")] :=
  ⟨rfl,
    spec_C4_no_ids_filter emptySession
      [("user_id", Value.str "alice"), ("agent_id", Value.null)] rfl rfl rfl rfl,
    rfl⟩

theorem namesStep_ok {s : Session} {kw : PyDict} {pr : PyDict × PyDict}
    (h : namesStep s kw = Except.ok pr) : pr.2 = filterNonNull pr.1 := by
  simp only [namesStep] at h
  split at h
  · have h2 := Except.ok.inj h
    subst h2
    rfl
  · split at h
    · exact Except.noConfusion h
    · have h2 := Except.ok.inj h
      subst h2
      rfl

/-- Counterexample to C9 as stated: `_prepare_params` is not free of side
effects on the caller's mapping.  For the session with `org_id = "org_123"`
and `project_id = "proj_456"` and the empty input mapping, the caller's dict
object ends the call holding the two injected identifier entries (first
component of the state-passing result), whereas it held no entries before
the call. -/
theorem spec_C9_counterexample :
    prepare_params_st idSession [] =
      Except.ok ([("org_id", Value.str "org_123"), ("project_id", Value.str "proj_456")],
        [("org_id", Value.str "org_123"), ("project_id", Value.str "proj_456")]) ∧
    ([("org_id", Value.str "org_123"), ("project_id", Value.str "proj_456")] : PyDict) ≠
      ([] : PyDict) :=
  ⟨rfl, by simp⟩

/-- C9 (amended): `_prepare_params` performs no network access and is a
deterministic function of the session's identifier fields and its input
mapping (it is embedded here as a total function of exactly those); the
mapping it returns is a new one, built as the non-`None` restriction of the
working dict.  However it mutates the caller's mapping in place by the
identifier assignments: the caller's mapping is guaranteed unchanged
(only) when the session has no identifier field set, in which case the
call returns the non-`None` restriction of the untouched input. -/
theorem spec_C9_pure_function_amended (s : Session) (kwargs : PyDict) :
    (∀ pr, prepare_params_st s kwargs = Except.ok pr → pr.2 = filterNonNull pr.1) ∧
    (truthy s.org_id = false → truthy s.project_id = false →
      truthy s.organization = false → truthy s.project = false →
      prepare_params_st s kwargs = Except.ok (kwargs, filterNonNull kwargs)) := by
  constructor
  · intro pr hpr
    simp only [prepare_params_st] at hpr
    split at hpr
    · exact Except.noConfusion hpr
    · split at hpr
      · exact namesStep_ok hpr
      · split at hpr
        · exact Except.noConfusion hpr
        · exact namesStep_ok hpr
  · intro h1 h2 h3 h4
    simp [prepare_params_st, namesStep, h1, h2, h3, h4]

/-- Witness for the amended C9: on a session with no identifier fields the
caller's mapping comes back exactly as it went in, and the returned mapping
is its non-`None` restriction. -/
theorem spec_C9_witness :
    prepare_params_st emptySession [("user_id", Value.str "alice")] =
      Except.ok ([("user_id", Value.str "alice")],
        filterNonNull [("user_id", Value.str "alice")]) :=
  (spec_C9_pure_function_amended emptySession [("user_id", Value.str "alice")]).2
    rfl rfl rfl rfl

theorem namesStep_nodup {s : Session} {kw : PyDict} {pr : PyDict × PyDict}
    (hnodup : (kw.map Prod.fst).Nodup) (h : namesStep s kw = Except.ok pr) :
    (pr.2.map Prod.fst).Nodup := by
  simp only [namesStep] at h
  split at h
  · have h2 := Except.ok.inj h
    subst h2
    exact nodup_keys_filterNonNull (nodup_keys_dictSet (nodup_keys_dictSet hnodup _ _) _ _)
  · split at h
    · exact Except.noConfusion h
    · have h2 := Except.ok.inj h
      subst h2
      exact nodup_keys_filterNonNull hnodup

theorem prepare_params_st_nodup {s : Session} {kwargs : PyDict} {pr : PyDict × PyDict}
    (hnodup : (kwargs.map Prod.fst).Nodup)
    (h : prepare_params_st s kwargs = Except.ok pr) :
    (pr.2.map Prod.fst).Nodup := by
  simp only [prepare_params_st] at h
  split at h
  · exact Except.noConfusion h
  · split at h
    · exact namesStep_nodup (nodup_keys_dictSet (nodup_keys_dictSet hnodup _ _) _ _) h
    · split at h
      · exact Except.noConfusion h
      · exact namesStep_nodup hnodup h

theorem nodup_keys_prepare_params {s : Session} {kwargs params : PyDict}
    (hnodup : (kwargs.map Prod.fst).Nodup)
    (hok : prepare_params s kwargs = Except.ok params) :
    (params.map Prod.fst).Nodup := by
  simp only [prepare_params] at hok
  cases hst : prepare_params_st s kwargs with
  | error m =>
    rw [hst] at hok
    exact Except.noConfusion hok
  | ok pr =>
    rw [hst] at hok
    simp only [Except.map] at hok
    have h2 := Except.ok.inj hok
    subst h2
    exact prepare_params_st_nodup hnodup hst

/-- Counterexample to C7 as stated: when the options mapping itself contains
a non-`None` `"messages"` entry, the later `payload.update(...)` overwrites
the messages field built from the `messages` argument, so the payload's
`"messages"` field is not the wrapped one-element list the claim demands. -/
theorem spec_C7_counterexample :
    prepare_payload (PyMessages.str "hi") [("messages", Value.str "clobber")] =
      [("messages", Value.str "clobber")] ∧
    Value.str "clobber" ≠ Value.list [Value.dict [("role", Value.str "user"),
      ("content", Value.str "hi")]] :=
  ⟨rfl, fun h => Value.noConfusion h⟩

/-- C7 (amended): provided the reconciled options mapping has no duplicate
keys and no non-`None` `"messages"` entry (in the client this always holds:
the `messages` argument is passed separately from `**kwargs`), the payload
built by `_prepare_payload` from a plain string `s` is exactly the entry
`"messages" ↦ [{role: "user", content: s}]` followed by every non-`None`
option entry unchanged, and from an already-structured list it is exactly
`"messages" ↦` that list, unchanged (pass-through), followed by the same
non-`None` option entries; `None`-valued options are dropped. -/
theorem spec_C7_payload_builder_amended (s : String) (ms : List Value) (kwargs : PyDict)
    (hnodup : (kwargs.map Prod.fst).Nodup)
    (hmsg : hasKey (filterNonNull kwargs) "messages" = false) :
    prepare_payload (PyMessages.str s) kwargs =
      ("messages", Value.list [Value.dict [("role", Value.str "user"),
        ("content", Value.str s)]]) :: filterNonNull kwargs ∧
    prepare_payload (PyMessages.list ms) kwargs =
      ("messages", Value.list ms) :: filterNonNull kwargs := by
  have hn : ((filterNonNull kwargs).map Prod.fst).Nodup := nodup_keys_filterNonNull hnodup
  have hdisj : ∀ w : Value, ∀ p ∈ filterNonNull kwargs,
      hasKey [("messages", w)] p.1 = false := by
    intro w p hp
    have hne : ¬(p.1 = "messages") := by
      intro hpm
      have hmem : hasKey (filterNonNull kwargs) "messages" = true :=
        hasKey_iff_mem.mpr (hpm ▸ List.mem_map.mpr ⟨p, hp, rfl⟩)
      rw [hmsg] at hmem
      cases hmem
    have hb : ("messages" == p.1) = false := by
      rw [beq_eq_false_iff_ne]
      exact fun h => hne h.symm
    simp [hasKey, hb]
  constructor
  · simp only [prepare_payload]
    rw [dictUpdate_eq_append _ hn (hdisj _)]
    rfl
  · simp only [prepare_payload]
    rw [dictUpdate_eq_append _ hn (hdisj _)]
    rfl

/-- Witness for the amended C7: one non-`None` option and one `None` option;
the payload keeps the wrapped message list, merges the non-`None` option and
drops the `None` one. -/
theorem spec_C7_witness :
    prepare_payload (PyMessages.str "hello")
        [("user_id", Value.str "alice"), ("metadata", Value.null)] =
      ("messages", Value.list [Value.dict [("role", Value.str "user"),
        ("content", Value.str "hello")]]) ::
        filterNonNull [("user_id", Value.str "alice"), ("metadata", Value.null)] ∧
    filterNonNull [("user_id", Value.str "alice"), ("metadata", Value.null)] =
      [("user_id", Value.str "alice")] :=
  ⟨(spec_C7_payload_builder_amended "hello" []
      [("user_id", Value.str "alice"), ("metadata", Value.null)]
      (by decide) (by decide)).1,
    rfl⟩

/-- Counterexample to C5 as stated: on the asynchronous client, a v2
`get_all` whose reconciled parameters contain both `page` and `page_size`
still sends no URL query parameters at all — both travel inside the JSON
body — contradicting the claim that on both clients exactly those two are
sent as query parameters. -/
theorem spec_C5_counterexample :
    get_all_async emptySession "v2" [("page", Value.int 1), ("page_size", Value.int 50)] =
      GetAllOutcome.request ⟨"POST", "/v2/memories/", [],
        some [("page", Value.int 1), ("page_size", Value.int 50)]⟩ ∧
    ([] : PyDict) ≠ [("page", Value.int 1), ("page_size", Value.int 50)] :=
  ⟨rfl, by simp⟩

/-- C5 (amended): for v2 `get_all` the pagination split holds on the
synchronous client only.  Synchronous: when the reconciled parameters
contain both `page` and `page_size`, the request POSTs exactly those two
entries (with their reconciled values) as URL query parameters and the JSON
body is the remaining parameters — it has no `page` or `page_size` key and
agrees with the reconciled parameters on every other key; when at most one
of the two is present, everything travels in the JSON body and no query
parameters are sent.  Asynchronous: all reconciled parameters always travel
in the JSON body with no query parameters, regardless of pagination. -/
theorem spec_C5_v2_pagination_amended (s : Session) (kwargs params : PyDict)
    (hnodup : (kwargs.map Prod.fst).Nodup)
    (hok : prepare_params s kwargs = Except.ok params) :
    (hasKey params "page" = true → hasKey params "page_size" = true →
      get_all_sync s "v2" kwargs = GetAllOutcome.request
        ⟨"POST", "/v2/memories/",
          [("page", (dictGet params "page").getD Value.null),
            ("page_size", (dictGet params "page_size").getD Value.null)],
          some (dictRemove (dictRemove params "page") "page_size")⟩ ∧
      hasKey (dictRemove (dictRemove params "page") "page_size") "page" = false ∧
      hasKey (dictRemove (dictRemove params "page") "page_size") "page_size" = false ∧
      (∀ k, ¬(k = "page") → ¬(k = "page_size") →
        dictGet (dictRemove (dictRemove params "page") "page_size") k = dictGet params k)) ∧
    ((hasKey params "page" = false ∨ hasKey params "page_size" = false) →
      get_all_sync s "v2" kwargs = GetAllOutcome.request
        ⟨"POST", "/v2/memories/", [], some params⟩) ∧
    get_all_async s "v2" kwargs = GetAllOutcome.request
      ⟨"POST", "/v2/memories/", [], some params⟩ := by
  have hpn : (params.map Prod.fst).Nodup := nodup_keys_prepare_params hnodup hok
  refine ⟨?_, ?_, ?_⟩
  · intro hpage hpsize
    have hget : dictGet (dictRemove params "page") "page_size" = dictGet params "page_size" :=
      dictGet_dictRemove_ne (by decide) params
    refine ⟨?_, ?_, ?_, ?_⟩
    · simp [get_all_sync, get_all_body, hok, hpage, hpsize, hget]
    · rw [hasKey_eq_isSome, dictGet_dictRemove_ne (by decide) _, ← hasKey_eq_isSome,
        hasKey_dictRemove_self hpn]
    · exact hasKey_dictRemove_self (nodup_keys_dictRemove hpn "page")
    · intro k hk1 hk2
      rw [dictGet_dictRemove_ne (fun h => hk2 h.symm) _,
        dictGet_dictRemove_ne (fun h => hk1 h.symm) _]
  · intro hone
    rcases hone with hone | hone <;>
      simp [get_all_sync, get_all_body, hok, hone]
  · simp [get_all_async, get_all_async_body, hok]

/-- Witness for the amended C5: with `page`, `page_size` and one filter, the
synchronous v2 call splits pagination into query parameters while the
asynchronous v2 call sends everything in the body. -/
theorem spec_C5_witness :
    get_all_sync emptySession "v2"
        [("page", Value.int 1), ("page_size", Value.int 50), ("user_id", Value.str "alice")] =
      GetAllOutcome.request ⟨"POST", "/v2/memories/",
        [("page", Value.int 1), ("page_size", Value.int 50)],
        some [("user_id", Value.str "alice")]⟩ ∧
    get_all_async emptySession "v2"
        [("page", Value.int 1), ("page_size", Value.int 50), ("user_id", Value.str "alice")] =
      GetAllOutcome.request ⟨"POST", "/v2/memories/", [],
        some [("page", Value.int 1), ("page_size", Value.int 50),
          ("user_id", Value.str "alice")]⟩ := by
  have h := spec_C5_v2_pagination_amended emptySession
    [("page", Value.int 1), ("page_size", Value.int 50), ("user_id", Value.str "alice")]
    [("page", Value.int 1), ("page_size", Value.int 50), ("user_id", Value.str "alice")]
    (by decide) rfl
  exact ⟨(h.1 rfl rfl).1, h.2.2⟩

/-- Counterexample to C10 as stated: on a session with only `org_id` set,
`get_all` with the unknown version "v3" fails with the configuration
`ValueError` raised by parameter reconciliation — not with the
unbound-local error the claim asserts for every call (still, no HTTP
request is issued). -/
theorem spec_C10_counterexample :
    get_all_sync orgOnlySession "v3" [] =
      GetAllOutcome.raised (Exc.valueError "Please provide both org_id and project_id") ∧
    Exc.valueError "Please provide both org_id and project_id" ≠ Exc.unboundLocalError :=
  ⟨rfl, by decide⟩

/-- C10 (amended): for every `get_all` call, on either client, whose version
argument is neither "v1" nor "v2", provided parameter reconciliation
succeeds, no HTTP request is issued and the call fails with the
`UnboundLocalError` from reading the never-assigned local `response` — not
with the unified `APIError` (the wrapper does not catch it) and not with a
configuration error.  (When reconciliation fails, its `ValueError`
propagates instead, still without any HTTP request.) -/
theorem spec_C10_unknown_version_amended (s : Session) (version : String) (kwargs : PyDict)
    (hv1 : ¬(version = "v1")) (hv2 : ¬(version = "v2"))
    (hok : isOk (prepare_params s kwargs) = true) :
    get_all_sync s version kwargs = GetAllOutcome.raised Exc.unboundLocalError ∧
    get_all_async s version kwargs = GetAllOutcome.raised Exc.unboundLocalError := by
  cases hpp : prepare_params s kwargs with
  | error m =>
    rw [hpp] at hok
    simp [isOk] at hok
  | ok params =>
    have hb1 : (version == "v1") = false := by
      rw [beq_eq_false_iff_ne]
      exact hv1
    have hb2 : (version == "v2") = false := by
      rw [beq_eq_false_iff_ne]
      exact hv2
    constructor
    · simp [get_all_sync, get_all_body, hpp, hb1, hb2, catchTransform]
    · simp [get_all_async, get_all_async_body, hpp, hb1, hb2]

/-- Witness for the amended C10 at version "v3" on a well-configured
session. -/
theorem spec_C10_witness :
    get_all_sync emptySession "v3" [] = GetAllOutcome.raised Exc.unboundLocalError ∧
    get_all_async emptySession "v3" [] = GetAllOutcome.raised Exc.unboundLocalError :=
  spec_C10_unknown_version_amended emptySession "v3" [] (by decide) (by decide) rfl

/-- C6 (code bug): the claim that every transport/status failure on both
clients is re-raised as the unified `APIError` fails for the asynchronous
client.  `api_error_handler`'s wrapper is a plain synchronous function;
applied to an `async def` method it only observes the creation of the
coroutine object, so an `httpx` exception raised while the caller awaits
the body escapes raw.  At the concrete failing input — `add("hello")` with
the POST raising `httpx.RequestError("Connection refused")` — the awaited
asynchronous call surfaces the raw `requestError`, while the synchronous
call with the same failure (and with an HTTP status failure) is correctly
wrapped into `APIError`, as the async docstrings also promise. -/
theorem spec_C6_async_wrapper_gap :
    awaitResult (add_async_call emptySession (PyMessages.str "hello") []
        (fun _ => PyResult.exc (Exc.requestError "Connection refused"))) =
      PyResult.exc (Exc.requestError "Connection refused") ∧
    add_sync_call emptySession (PyMessages.str "hello") []
        (fun _ => PyResult.exc (Exc.requestError "Connection refused")) =
      PyResult.exc (Exc.apiError "Request failed: Connection refused") ∧
    add_sync_call emptySession (PyMessages.str "hello") []
        (fun _ => PyResult.exc (Exc.httpStatusError "500 server error")) =
      PyResult.exc (Exc.apiError "API request failed: 500 server error") :=
  ⟨rfl, rfl, rfl⟩

/-- C8: the per-entity deletion loop of `delete_users`, on both clients,
issues its DELETEs strictly sequentially; when the failing entity `e` is
preceded by entities `pre` whose deletes all succeed, exactly the deletes
of `pre` have completed, `e`'s delete is issued and its failure surfaces
immediately as the loop's error, and no delete for any entity after `e` is
ever issued (sequential short-circuit, no rollback). -/
theorem spec_C8_delete_users_short_circuit (outcome : Entity → Option Exc)
    (pre post : List Entity) (e : Entity) (x : Exc)
    (hpre : ∀ a ∈ pre, outcome a = Option.none) (he : outcome e = some x) :
    delete_users_sync outcome (pre ++ e :: post) =
      ⟨pre ++ [e], pre, some x⟩ ∧
    delete_users_async outcome (pre ++ e :: post) =
      ⟨pre ++ [e], pre, some x⟩ := by
  induction pre with
  | nil => simp [delete_users_sync, delete_users_async, he]
  | cons a t ih =>
    have ha : outcome a = Option.none := hpre a (List.mem_cons_self _ _)
    have iht := ih (fun b hb => hpre b (List.mem_cons_of_mem _ hb))
    constructor
    · simp [delete_users_sync, ha, iht.1]
    · simp [delete_users_async, ha, iht.2]

/-- Witness for C8: three entities where the second delete fails with an
HTTP status error; on both clients the first delete completed, the second
was issued and failed, and the third was never issued. -/
theorem spec_C8_witness :
    delete_users_sync
        (fun b : Entity => if b.id = "bob" then some (Exc.httpStatusError "500") else Option.none)
        [⟨"user", "alice"⟩, ⟨"agent", "bob"⟩, ⟨"user", "carol"⟩] =
      ⟨[⟨"user", "alice"⟩, ⟨"agent", "bob"⟩], [⟨"user", "alice"⟩],
        some (Exc.httpStatusError "500")⟩ ∧
    delete_users_async
        (fun b : Entity => if b.id = "bob" then some (Exc.httpStatusError "500") else Option.none)
        [⟨"user", "alice"⟩, ⟨"agent", "bob"⟩, ⟨"user", "carol"⟩] =
      ⟨[⟨"user", "alice"⟩, ⟨"agent", "bob"⟩], [⟨"user", "alice"⟩],
        some (Exc.httpStatusError "500")⟩ :=
  spec_C8_delete_users_short_circuit
    (fun b : Entity => if b.id = "bob" then some (Exc.httpStatusError "500") else Option.none)
    [⟨"user", "alice"⟩] [⟨"user", "carol"⟩] ⟨"agent", "bob"⟩ (Exc.httpStatusError "500")
    (by decide) (by decide)

end Mem0
